import Mathlib

/-!
Verification of the ray-construction and ray-intersection routines of a
small 3D picking/math library (`projectMouseToWorldSpace`,
`intersectRayWithPlane`, `intersectRayWithTriangle`, `intersectRayWithQuad`,
`intersectRayWithAABB`).

Number model: the source operates on JavaScript numbers (IEEE-754 doubles).
We model them as `JSNum`: exact rationals together with the special values
`+Infinity`, `-Infinity` and `NaN`, with the IEEE rules for how the special
values flow through arithmetic, division by zero, comparisons (every
comparison involving NaN is false) and `Math.min`/`Math.max` (NaN if either
argument is NaN).  Finite arithmetic is exact (no rounding) and zero is
unsigned; every concrete counterexample below only exercises divisions whose
zero divisor is a positive zero in the source's dynamics, so the unsigned
model agrees with the IEEE behaviour on all inputs used.  General statements
about division by a zero divisor are phrased so as not to depend on the
zero's sign (which the model does not track): either through the computed
quotient itself, or for the `0 / 0 = NaN` case, which is sign-independent.

The mouse-projection routine uses `Math.sqrt` and a 4x4 matrix inverse, so it
is modelled separately over the real numbers.
-/

/-- Model of a JavaScript number: a finite (exact) rational, an infinity
(`inf true` is `+Infinity`, `inf false` is `-Infinity`), or `NaN`. -/
inductive JSNum : Type where
  | nan : JSNum
  | inf : Bool → JSNum
  | fin : ℚ → JSNum
deriving DecidableEq, Repr

namespace JSNum

/-- JS `+` on numbers. -/
def add : JSNum → JSNum → JSNum
  | nan, _ => nan
  | _, nan => nan
  | inf s, inf t => if s = t then inf s else nan
  | inf s, fin _ => inf s
  | fin _, inf t => inf t
  | fin a, fin b => fin (a + b)

/-- JS `-` on numbers. -/
def sub : JSNum → JSNum → JSNum
  | nan, _ => nan
  | _, nan => nan
  | inf s, inf t => if s = t then nan else inf s
  | inf s, fin _ => inf s
  | fin _, inf t => inf (!t)
  | fin a, fin b => fin (a - b)

/-- JS `*` on numbers (`0 * Infinity` is NaN). -/
def mul : JSNum → JSNum → JSNum
  | nan, _ => nan
  | _, nan => nan
  | inf s, inf t => inf (s == t)
  | inf s, fin b => if b = 0 then nan else inf (s == decide (0 < b))
  | fin a, inf t => if a = 0 then nan else inf (t == decide (0 < a))
  | fin a, fin b => fin (a * b)

/-- JS `/` on numbers.  A nonzero finite value divided by zero yields an
infinity whose sign is the numerator's — the model's single unsigned zero is
given the IEEE *positive*-zero rule, so a computation whose divisor would be
`-0` in the source is not represented faithfully here.  Consequently no
theorem below asserts which sign of infinity a division by zero produces
from general inputs; concrete counterexamples only exercise divisions whose
zero divisor is a positive zero in the source's dynamics.  `0 / 0` is NaN
(as it is in IEEE for both zero signs); `Infinity / Infinity` is NaN. -/
def div : JSNum → JSNum → JSNum
  | nan, _ => nan
  | _, nan => nan
  | inf _, inf _ => nan
  | inf s, fin b => if b = 0 then inf s else inf (s == decide (0 < b))
  | fin _, inf _ => fin 0
  | fin a, fin b =>
    if b = 0 then (if a = 0 then nan else inf (decide (0 < a))) else fin (a / b)

/-- JS `<` (false whenever either side is NaN). -/
def lt : JSNum → JSNum → Bool
  | nan, _ => false
  | _, nan => false
  | inf s, inf t => !s && t
  | inf s, fin _ => !s
  | fin _, inf t => t
  | fin a, fin b => decide (a < b)

/-- JS `<=` (false whenever either side is NaN). -/
def le : JSNum → JSNum → Bool
  | nan, _ => false
  | _, nan => false
  | inf s, inf t => !s || t
  | inf s, fin _ => !s
  | fin _, inf t => t
  | fin a, fin b => decide (a ≤ b)

/-- JS `>`. -/
def gt (x y : JSNum) : Bool := lt y x

/-- JS `>=`. -/
def ge (x y : JSNum) : Bool := le y x

/-- JS `Math.min` (NaN if either argument is NaN, else the smaller). -/
def jmin : JSNum → JSNum → JSNum
  | nan, _ => nan
  | _, nan => nan
  | x, y => if lt x y then x else y

/-- JS `Math.max` (NaN if either argument is NaN, else the larger). -/
def jmax : JSNum → JSNum → JSNum
  | nan, _ => nan
  | _, nan => nan
  | x, y => if lt x y then y else x

end JSNum

/-- A `vec3` of JavaScript numbers. -/
structure V3 : Type where
  x : JSNum
  y : JSNum
  z : JSNum
deriving DecidableEq, Repr

/-- `vec3.sub` (componentwise). -/
def v3sub (a b : V3) : V3 :=
  ⟨JSNum.sub a.x b.x, JSNum.sub a.y b.y, JSNum.sub a.z b.z⟩

/-- `vec3.add` (componentwise). -/
def v3add (a b : V3) : V3 :=
  ⟨JSNum.add a.x b.x, JSNum.add a.y b.y, JSNum.add a.z b.z⟩

/-- `vec3.scale`: each component of `a` multiplied by the scalar `b`. -/
def v3scale (a : V3) (b : JSNum) : V3 :=
  ⟨JSNum.mul a.x b, JSNum.mul a.y b, JSNum.mul a.z b⟩

/-- `vec3.dot`, with the source's left-to-right association
`(ax*bx + ay*by) + az*bz`. -/
def v3dot (a b : V3) : JSNum :=
  JSNum.add (JSNum.add (JSNum.mul a.x b.x) (JSNum.mul a.y b.y))
    (JSNum.mul a.z b.z)

/-- `vec3.cross`. -/
def v3cross (a b : V3) : V3 :=
  ⟨JSNum.sub (JSNum.mul a.y b.z) (JSNum.mul a.z b.y),
   JSNum.sub (JSNum.mul a.z b.x) (JSNum.mul a.x b.z),
   JSNum.sub (JSNum.mul a.x b.y) (JSNum.mul a.y b.x)⟩

/-- `BoundingBox` from `src/interfaces.ts`: an axis-aligned box given by its
`min` and `max` corners. -/
structure BoundingBox : Type where
  min : V3
  max : V3
deriving DecidableEq, Repr

/-- `intersectRayWithPlane` from the source: `wp = dot(planePos - rayStart,
planeNormal)`, `vp = dot(rayDirection, planeNormal)`, `time = wp / vp`; if
`time >= 0` return `[time, rayDirection * time + rayStart]`, else `null`. -/
def intersectRayWithPlane (rayStart rayDirection planePos planeNormal : V3) :
    Option (JSNum × V3) :=
  let rayToPlaneDelta := v3sub planePos rayStart
  let wp := v3dot rayToPlaneDelta planeNormal
  let vp := v3dot rayDirection planeNormal
  let time := JSNum.div wp vp
  if JSNum.ge time (JSNum.fin 0) then
    let intersectPoint := v3add (v3scale rayDirection time) rayStart
    some (time, intersectPoint)
  else
    none

/-- `intersectRayWithTriangle` from the source.  The plane normal is
`cross(v1 - v0, v2 - v0)`; the source's edge loop (`i = 0, 1, 2` with
`ii = (i + 1) % 3`) is unrolled into its three iterations, each an early
`null` return when `dot(planeNormal, cross(edge, point - vertex[i])) < 0`. -/
def intersectRayWithTriangle (rayStart rayDirection : V3)
    (verticesArr : V3 × V3 × V3) : Option (JSNum × V3) :=
  let v0 := verticesArr.1
  let v1 := verticesArr.2.1
  let v2 := verticesArr.2.2
  let edge0 := v3sub v1 v0
  let edge2 := v3sub v2 v0
  let planeNormal := v3cross edge0 edge2
  match intersectRayWithPlane rayStart rayDirection v0 planeNormal with
  | none => none
  | some (rayTime, intersectPoint) =>
    if JSNum.lt (v3dot planeNormal
        (v3cross (v3sub v1 v0) (v3sub intersectPoint v0))) (JSNum.fin 0) then
      none
    else if JSNum.lt (v3dot planeNormal
        (v3cross (v3sub v2 v1) (v3sub intersectPoint v1))) (JSNum.fin 0) then
      none
    else if JSNum.lt (v3dot planeNormal
        (v3cross (v3sub v0 v2) (v3sub intersectPoint v2))) (JSNum.fin 0) then
      none
    else
      some (rayTime, intersectPoint)

/-- `intersectRayWithQuad` from the source.  The plane normal is
`cross(v2 - v1, v0 - v1)`; the fourth vertex is never read (it is commented
out in the source). -/
def intersectRayWithQuad (rayStart rayDirection : V3)
    (verticesArr : V3 × V3 × V3 × V3) : Option (JSNum × V3) :=
  let v0 := verticesArr.1
  let v1 := verticesArr.2.1
  let v2 := verticesArr.2.2.1
  let planeNormal := v3cross (v3sub v2 v1) (v3sub v0 v1)
  match intersectRayWithPlane rayStart rayDirection v0 planeNormal with
  | none => none
  | some (rayTime, intersectPoint) =>
    let edge0 := v3sub v1 v0
    let t1 := JSNum.div (v3dot (v3sub intersectPoint v0) edge0)
      (v3dot edge0 edge0)
    if JSNum.lt t1 (JSNum.fin 0) || JSNum.gt t1 (JSNum.fin 1) then
      none
    else
      let edge1 := v3sub v2 v1
      let t2 := JSNum.div (v3dot (v3sub intersectPoint v1) edge1)
        (v3dot edge1 edge1)
      if JSNum.lt t2 (JSNum.fin 0) || JSNum.gt t2 (JSNum.fin 1) then
        none
      else
        some (rayTime, intersectPoint)

/-- `intersectRayWithAABB` from the source: the slab method with the source's
exact `Math.max`/`Math.min` nesting, returning the bare entry time. -/
def intersectRayWithAABB (origin direction : V3) (box : BoundingBox) :
    Option JSNum :=
  let tMinX := JSNum.div (JSNum.sub box.min.x origin.x) direction.x
  let tMaxX := JSNum.div (JSNum.sub box.max.x origin.x) direction.x
  let tMinY := JSNum.div (JSNum.sub box.min.y origin.y) direction.y
  let tMaxY := JSNum.div (JSNum.sub box.max.y origin.y) direction.y
  let tMinZ := JSNum.div (JSNum.sub box.min.z origin.z) direction.z
  let tMaxZ := JSNum.div (JSNum.sub box.max.z origin.z) direction.z
  let tmin := JSNum.jmax (JSNum.jmax (JSNum.jmin tMinX tMaxX)
    (JSNum.jmin tMinY tMaxY)) (JSNum.jmin tMinZ tMaxZ)
  let tmax := JSNum.jmin (JSNum.jmin (JSNum.jmax tMinX tMaxX)
    (JSNum.jmax tMinY tMaxY)) (JSNum.jmax tMinZ tMaxZ)
  if JSNum.lt tmax (JSNum.fin 0) then
    none
  else if JSNum.gt tmin tmax then
    none
  else
    some tmin

/-- Claim-side restatement of the plane intersection (C1's wording): compute
`time = dot(planePos - rayStart, planeNormal) / dot(rayDirection,
planeNormal)`; if `time >= 0` return the pair `(time, rayStart +
rayDirection * time)`, otherwise return no-hit. -/
def planeHitPerClaim (rayStart rayDirection planePos planeNormal : V3) :
    Option (JSNum × V3) :=
  let time := JSNum.div (v3dot (v3sub planePos rayStart) planeNormal)
    (v3dot rayDirection planeNormal)
  if JSNum.ge time (JSNum.fin 0) then
    some (time, v3add rayStart (v3scale rayDirection time))
  else
    none

/-- Claim-side restatement of the AABB intersection (C4's wording): per-axis
slab times, `tmin` the max over axes of the per-axis min, `tmax` the min over
axes of the per-axis max; no-hit exactly when `tmax < 0` or `tmin > tmax`,
otherwise the bare scalar `tmin`. -/
def aabbHitPerClaim (origin direction : V3) (box : BoundingBox) :
    Option JSNum :=
  let tMinX := JSNum.div (JSNum.sub box.min.x origin.x) direction.x
  let tMaxX := JSNum.div (JSNum.sub box.max.x origin.x) direction.x
  let tMinY := JSNum.div (JSNum.sub box.min.y origin.y) direction.y
  let tMaxY := JSNum.div (JSNum.sub box.max.y origin.y) direction.y
  let tMinZ := JSNum.div (JSNum.sub box.min.z origin.z) direction.z
  let tMaxZ := JSNum.div (JSNum.sub box.max.z origin.z) direction.z
  let tmin := JSNum.jmax (JSNum.jmax (JSNum.jmin tMinX tMaxX)
    (JSNum.jmin tMinY tMaxY)) (JSNum.jmin tMinZ tMaxZ)
  let tmax := JSNum.jmin (JSNum.jmin (JSNum.jmax tMinX tMaxX)
    (JSNum.jmax tMinY tMaxY)) (JSNum.jmax tMinZ tMaxZ)
  if JSNum.lt tmax (JSNum.fin 0) || JSNum.gt tmin tmax then
    none
  else
    some tmin

/-- A `vec3` with exact rational (finite) components, used to state the
theorems that quantify over finite inputs. -/
structure QV3 : Type where
  x : ℚ
  y : ℚ
  z : ℚ
deriving DecidableEq, Repr

/-- Inclusion of finite rational vectors into JS-number vectors. -/
def qv3 (v : QV3) : V3 := ⟨JSNum.fin v.x, JSNum.fin v.y, JSNum.fin v.z⟩

/-- Rational dot product. -/
def qdot (a b : QV3) : ℚ := a.x * b.x + a.y * b.y + a.z * b.z

/-- Rational cross product. -/
def qcross (a b : QV3) : QV3 :=
  ⟨a.y * b.z - a.z * b.y, a.z * b.x - a.x * b.z, a.x * b.y - a.y * b.x⟩

/-- Rational componentwise subtraction. -/
def qsub (a b : QV3) : QV3 := ⟨a.x - b.x, a.y - b.y, a.z - b.z⟩

/-- A `vec3` of real numbers, for the mouse-projection routine (whose
`Math.sqrt` has no exact rational counterpart). -/
structure RV3 : Type where
  x : ℝ
  y : ℝ
  z : ℝ

/-- Componentwise addition (`vec3.add`) over the reals. -/
def rv3add (a b : RV3) : RV3 := ⟨a.x + b.x, a.y + b.y, a.z + b.z⟩

/-- Componentwise subtraction (`vec3.subtract`) over the reals. -/
def rv3sub (a b : RV3) : RV3 := ⟨a.x - b.x, a.y - b.y, a.z - b.z⟩

/-- `vec3.scale` over the reals. -/
def rv3scale (a : RV3) (b : ℝ) : RV3 := ⟨a.x * b, a.y * b, a.z * b⟩

/-- `vec3.length`: the magnitude `sqrt(x*x + y*y + z*z)`. -/
noncomputable def rv3magnitude (a : RV3) : ℝ :=
  Real.sqrt (a.x * a.x + a.y * a.y + a.z * a.z)

/-- `vec3.normalize`, exactly as in gl-matrix: `len = x*x + y*y + z*z`; if
`len > 0` replace it by `1 / sqrt(len)`; scale the vector by `len`.  (A zero
vector is returned unchanged, scaled by zero.) -/
noncomputable def rv3normalize (a : RV3) : RV3 :=
  let len := a.x * a.x + a.y * a.y + a.z * a.z
  let len2 := if 0 < len then 1 / Real.sqrt len else len
  ⟨a.x * len2, a.y * len2, a.z * len2⟩

/-- `PerspectiveCamera` from `src/interfaces.ts`, with the two matrices as
4x4 real matrices (the external `gl-matrix` collaborator's `mat4`). -/
structure PerspectiveCamera : Type where
  projectionMatrix : Matrix (Fin 4) (Fin 4) ℝ
  viewMatrixInverse : Matrix (Fin 4) (Fin 4) ℝ
  position : RV3

/-- `ProjectedMouse` from `src/interfaces.ts`. -/
structure ProjectedMouse : Type where
  rayStart : RV3
  rayEnd : RV3
  rayDirection : RV3

/-- The world-space (un-normalized) ray direction computed by
`projectMouseToWorldSpace`: clip point `(x, y, -1, 1)`, transformed by the
inverted projection matrix, its `z`/`w` forced to `-1`/`0`, transformed by
the inverse view matrix, and truncated to its `xyz` part.  `mat4.invert` is
modelled by Mathlib's matrix inverse, which agrees with gl-matrix whenever
the determinant is nonzero (the only domain any claim speaks about). -/
noncomputable def worldRayDirection (normMouseCoords : ℝ × ℝ)
    (camera : PerspectiveCamera) : RV3 :=
  let vec4Clip : Fin 4 → ℝ :=
    ![normMouseCoords.1, normMouseCoords.2, -1, 1]
  let matInvProjection := camera.projectionMatrix⁻¹
  let vec4EyeRaw := matInvProjection.mulVec vec4Clip
  let vec4Eye : Fin 4 → ℝ := ![vec4EyeRaw 0, vec4EyeRaw 1, -1, 0]
  let vec4World := camera.viewMatrixInverse.mulVec vec4Eye
  ⟨vec4World 0, vec4World 1, vec4World 2⟩

/-- `projectMouseToWorldSpace` from the source: normalize the world
direction, start the ray at the camera position, end it `rayScale` along the
normalized direction, and record `rayDirection = rayEnd - rayStart`. -/
noncomputable def projectMouseToWorldSpace (normMouseCoords : ℝ × ℝ)
    (camera : PerspectiveCamera) (rayScale : ℝ) : ProjectedMouse :=
  let ray := rv3normalize (worldRayDirection normMouseCoords camera)
  let rayStart := camera.position
  let rayMul := rv3scale ray rayScale
  let rayEnd := rv3add rayStart rayMul
  let rayDirection := rv3sub rayEnd rayStart
  { rayStart := rayStart, rayEnd := rayEnd, rayDirection := rayDirection }

@[simp]
theorem JSNum.add_fin (a b : ℚ) :
    JSNum.add (JSNum.fin a) (JSNum.fin b) = JSNum.fin (a + b) := rfl

@[simp]
theorem JSNum.sub_fin (a b : ℚ) :
    JSNum.sub (JSNum.fin a) (JSNum.fin b) = JSNum.fin (a - b) := rfl

@[simp]
theorem JSNum.mul_fin (a b : ℚ) :
    JSNum.mul (JSNum.fin a) (JSNum.fin b) = JSNum.fin (a * b) := rfl

theorem JSNum.div_fin (a : ℚ) {b : ℚ} (hb : b ≠ 0) :
    JSNum.div (JSNum.fin a) (JSNum.fin b) = JSNum.fin (a / b) := by
  simp [JSNum.div, hb]

@[simp]
theorem JSNum.lt_fin (a b : ℚ) :
    JSNum.lt (JSNum.fin a) (JSNum.fin b) = decide (a < b) := rfl

@[simp]
theorem JSNum.le_fin (a b : ℚ) :
    JSNum.le (JSNum.fin a) (JSNum.fin b) = decide (a ≤ b) := rfl

/-- JS addition is commutative in the model (as IEEE addition is). -/
theorem JSNum.addComm (a b : JSNum) : JSNum.add a b = JSNum.add b a := by
  cases a <;> cases b <;>
    first
      | rfl
      | (rename_i s t
         cases s <;> cases t <;> rfl)
      | (rename_i p q
         show JSNum.fin (p + q) = JSNum.fin (q + p)
         rw [add_comm])

/-- A value `>= 0` in JS is not `< 0`. -/
theorem JSNum.ge_zero_not_lt_zero {x : JSNum}
    (h : JSNum.ge x (JSNum.fin 0) = true) :
    JSNum.lt x (JSNum.fin 0) = false := by
  cases x with
  | nan => simp [JSNum.ge, JSNum.le] at h
  | inf s => simp [JSNum.ge, JSNum.le] at h; simp [JSNum.lt, h]
  | fin a =>
    simp [JSNum.ge, JSNum.le] at h
    simp [JSNum.lt]
    linarith

/-- `0 <= t` and `t <= 1` in JS rule out both `t < 0` and `t > 1`. -/
theorem JSNum.mem_unit_not_out {t : JSNum}
    (h0 : JSNum.le (JSNum.fin 0) t = true)
    (h1 : JSNum.le t (JSNum.fin 1) = true) :
    (JSNum.lt t (JSNum.fin 0) || JSNum.gt t (JSNum.fin 1)) = false := by
  cases t with
  | nan => simp [JSNum.le] at h0
  | inf s =>
    simp [JSNum.le] at h0 h1
    rw [h0] at h1
    cases h1
  | fin a =>
    simp [JSNum.le] at h0 h1
    simp [JSNum.lt, JSNum.gt]
    constructor <;> linarith

@[simp]
theorem v3sub_qv3 (a b : QV3) : v3sub (qv3 a) (qv3 b) = qv3 (qsub a b) := rfl

@[simp]
theorem v3dot_qv3 (a b : QV3) :
    v3dot (qv3 a) (qv3 b) = JSNum.fin (qdot a b) := rfl

@[simp]
theorem v3cross_qv3 (a b : QV3) :
    v3cross (qv3 a) (qv3 b) = qv3 (qcross a b) := rfl

theorem v3addscale_qv3 (o d : QV3) (t : ℚ) :
    v3add (v3scale (qv3 d) (JSNum.fin t)) (qv3 o) =
      qv3 ⟨d.x * t + o.x, d.y * t + o.y, d.z * t + o.z⟩ := rfl

/-- Behaviour of the plane intersection on finite inputs whose direction is
not parallel to the plane: the exact rational `time = dot(planePos -
rayStart, n) / dot(rayDirection, n)` decides the hit, and the hit point is
`rayDirection * time + rayStart` componentwise. -/
theorem intersectRayWithPlane_qv3 (o d p n : QV3) (hv : qdot d n ≠ 0) :
    intersectRayWithPlane (qv3 o) (qv3 d) (qv3 p) (qv3 n) =
      (if 0 ≤ qdot (qsub p o) n / qdot d n then
        some (JSNum.fin (qdot (qsub p o) n / qdot d n),
          qv3 ⟨d.x * (qdot (qsub p o) n / qdot d n) + o.x,
               d.y * (qdot (qsub p o) n / qdot d n) + o.y,
               d.z * (qdot (qsub p o) n / qdot d n) + o.z⟩)
      else none) := by
  unfold intersectRayWithPlane
  simp only [v3sub_qv3, v3dot_qv3, JSNum.div_fin _ hv, JSNum.ge,
    JSNum.le_fin, decide_eq_true_eq]
  by_cases h : 0 ≤ qdot (qsub p o) n / qdot d n
  · rw [if_pos h, if_pos h, v3addscale_qv3]
  · rw [if_neg h, if_neg h]

theorem v3addComm (a b : V3) : v3add a b = v3add b a := by
  simp only [v3add, V3.mk.injEq]
  exact ⟨JSNum.addComm a.x b.x, JSNum.addComm a.y b.y, JSNum.addComm a.z b.z⟩

/-- Two sequential early-`null` guards collapse to a single disjunctive
guard. -/
theorem guard_pair_eq_or (b1 b2 : Bool) (x : Option JSNum) :
    (if b1 then (none : Option JSNum) else if b2 then none else x) =
      (if (b1 || b2) then none else x) := by
  cases b1 <;> cases b2 <;> rfl

/-- A value `< 0` in JS is not `>= 0`. -/
theorem JSNum.lt_zero_not_ge_zero {x : JSNum}
    (h : JSNum.lt x (JSNum.fin 0) = true) :
    JSNum.ge x (JSNum.fin 0) = false := by
  cases x with
  | nan => simp [JSNum.lt] at h
  | inf s =>
    simp [JSNum.lt] at h
    simp [JSNum.ge, JSNum.le, h]
  | fin a =>
    simp [JSNum.lt] at h
    simp [JSNum.ge, JSNum.le]
    linarith

/-- C1: `intersectRayWithPlane` computes `time = dot(planePos - rayStart,
planeNormal) / dot(rayDirection, planeNormal)`; if `time >= 0` (by the JS
comparison) it returns the pair `(time, rayStart + rayDirection * time)`,
and otherwise it returns no-hit (`none`). -/
theorem plane_matches_claim (rayStart rayDirection planePos planeNormal : V3) :
    intersectRayWithPlane rayStart rayDirection planePos planeNormal =
      planeHitPerClaim rayStart rayDirection planePos planeNormal := by
  unfold intersectRayWithPlane planeHitPerClaim
  by_cases h : JSNum.ge (JSNum.div (v3dot (v3sub planePos rayStart)
      planeNormal) (v3dot rayDirection planeNormal)) (JSNum.fin 0) = true
  · simp only [if_pos h]
    rw [v3addComm]
  · simp only [if_neg h]

/-- C4: `intersectRayWithAABB` computes the six per-axis slab times, takes
`tmin` as the max over axes of the per-axis min and `tmax` as the min over
axes of the per-axis max, returns no-hit exactly when `tmax < 0` or
`tmin > tmax` (JS comparisons), and otherwise returns the bare scalar
`tmin`. -/
theorem aabb_matches_claim (origin direction : V3) (box : BoundingBox) :
    intersectRayWithAABB origin direction box =
      aabbHitPerClaim origin direction box := by
  unfold intersectRayWithAABB aabbHitPerClaim
  exact guard_pair_eq_or _ _ _

/-- C9: with a zero direction component the per-axis divisions produce
infinities that the min/max reductions classify correctly: for the unit box,
a ray from `(0.5, 0.5, -5)` along `(0, 0, 1)` enters at time `5`, and the
same ray started at `(0.5, 0.5, 5)` (box behind the origin) misses. -/
theorem aabb_parallel_slab_cases :
    intersectRayWithAABB (qv3 ⟨1/2, 1/2, -5⟩) (qv3 ⟨0, 0, 1⟩)
        ⟨qv3 ⟨0, 0, 0⟩, qv3 ⟨1, 1, 1⟩⟩ = some (JSNum.fin 5) ∧
      intersectRayWithAABB (qv3 ⟨1/2, 1/2, 5⟩) (qv3 ⟨0, 0, 1⟩)
        ⟨qv3 ⟨0, 0, 0⟩, qv3 ⟨1, 1, 1⟩⟩ = none := by
  constructor <;>
    norm_num [intersectRayWithAABB, qv3, JSNum.div, JSNum.sub, JSNum.jmin,
      JSNum.jmax, JSNum.lt, JSNum.gt, JSNum.le, JSNum.ge]

/-- C10: `intersectRayWithQuad` never reads the fourth vertex, so its result
is the same for any two values of it. -/
theorem quad_ignores_fourth_vertex (rayStart rayDirection v0 v1 v2 w w' : V3) :
    intersectRayWithQuad rayStart rayDirection (v0, v1, v2, w) =
      intersectRayWithQuad rayStart rayDirection (v0, v1, v2, w') := rfl

/-- C8 fails as stated: this ray is parallel to the plane
(`dot(rayDirection, planeNormal) == 0`) yet `intersectRayWithPlane` does not
return no-hit — `time = 1 / 0 = +Infinity` passes the `time >= 0` test and a
degenerate hit `(Infinity, (Infinity, NaN, NaN))` is returned. -/
theorem plane_parallel_counterexample :
    v3dot (qv3 ⟨1, 0, 0⟩) (qv3 ⟨0, 0, 1⟩) = JSNum.fin 0 ∧
      intersectRayWithPlane (qv3 ⟨0, 0, 0⟩) (qv3 ⟨1, 0, 0⟩) (qv3 ⟨0, 0, 1⟩)
        (qv3 ⟨0, 0, 1⟩) =
      some (JSNum.inf true, ⟨JSNum.inf true, JSNum.nan, JSNum.nan⟩) := by
  constructor
  · norm_num [qv3, v3dot, JSNum.add, JSNum.mul]
  · norm_num [intersectRayWithPlane, qv3, v3dot, v3sub, v3add, v3scale,
      JSNum.div, JSNum.sub, JSNum.add, JSNum.mul, JSNum.lt, JSNum.gt,
      JSNum.le, JSNum.ge]

/-- C8 amended: `intersectRayWithPlane` returns no-hit exactly when the
computed `time = dot(planePos - rayStart, planeNormal) / dot(rayDirection,
planeNormal)` fails the JS test `time >= 0` (that is, `time` is negative or
NaN) — this characterization is the program's own branch condition and does
not depend on the sign of a zero divisor.  In particular an intersection
behind the ray origin (`time < 0`) returns no-hit, and a parallel ray whose
origin lies on the plane (both dot products zero, so `time = 0 / ±0 = NaN`
for either zero sign) returns no-hit.  A parallel ray whose origin is off
the plane instead gets `time = ±Infinity`, where the sign follows IEEE
signed-zero division, and can return a degenerate hit, as
`plane_parallel_counterexample` shows.  Both no-hit cases return the very
same `none`, so the result does not distinguish them. -/
theorem plane_no_hit_cases (rayStart rayDirection planePos planeNormal : V3) :
    (intersectRayWithPlane rayStart rayDirection planePos planeNormal =
        none ↔
      JSNum.ge (JSNum.div (v3dot (v3sub planePos rayStart) planeNormal)
        (v3dot rayDirection planeNormal)) (JSNum.fin 0) = false) ∧
    (JSNum.lt (JSNum.div (v3dot (v3sub planePos rayStart) planeNormal)
        (v3dot rayDirection planeNormal)) (JSNum.fin 0) = true →
      intersectRayWithPlane rayStart rayDirection planePos planeNormal =
        none) ∧
    (v3dot rayDirection planeNormal = JSNum.fin 0 →
      v3dot (v3sub planePos rayStart) planeNormal = JSNum.fin 0 →
      intersectRayWithPlane rayStart rayDirection planePos planeNormal =
        none) := by
  refine ⟨?_, fun h => ?_, fun hvp hwp => ?_⟩
  · rcases Bool.eq_false_or_eq_true (JSNum.ge (JSNum.div (v3dot
        (v3sub planePos rayStart) planeNormal)
        (v3dot rayDirection planeNormal)) (JSNum.fin 0)) with h | h <;>
      simp [intersectRayWithPlane, h]
  · simp [intersectRayWithPlane, JSNum.lt_zero_not_ge_zero h]
  · simp [intersectRayWithPlane, hvp, hwp, JSNum.div, JSNum.ge, JSNum.le]

/-- Witness for the amended C8: a concrete parallel ray whose origin lies on
the plane (`0 / 0` is NaN) is rejected. -/
theorem plane_no_hit_cases_witness :
    intersectRayWithPlane (qv3 ⟨0, 0, 0⟩) (qv3 ⟨1, 0, 0⟩) (qv3 ⟨0, 0, 0⟩)
      (qv3 ⟨0, 0, 1⟩) = none :=
  (plane_no_hit_cases (qv3 ⟨0, 0, 0⟩) (qv3 ⟨1, 0, 0⟩) (qv3 ⟨0, 0, 0⟩)
    (qv3 ⟨0, 0, 1⟩)).2.2
    (by norm_num [qv3, v3dot, JSNum.add, JSNum.mul])
    (by norm_num [qv3, v3dot, v3sub, JSNum.add, JSNum.mul, JSNum.sub])

/-- C2: `intersectRayWithTriangle` first intersects the ray with the plane
through `v0` with normal `cross(v1 - v0, v2 - v0)`; no plane hit gives
no-hit; a negative edge cross-dot (JS `<`) for any of the wrapping edges
`v0->v1`, `v1->v2`, `v2->v0` gives no-hit; and if all three edge cross-dots
are non-negative (JS `>=`), the plane-intersection pair is returned
unchanged. -/
theorem triangle_matches_claim (rayStart rayDirection v0 v1 v2 : V3) :
    (intersectRayWithPlane rayStart rayDirection v0
        (v3cross (v3sub v1 v0) (v3sub v2 v0)) = none →
      intersectRayWithTriangle rayStart rayDirection (v0, v1, v2) = none) ∧
    (∀ t p, intersectRayWithPlane rayStart rayDirection v0
        (v3cross (v3sub v1 v0) (v3sub v2 v0)) = some (t, p) →
      ((JSNum.lt (v3dot (v3cross (v3sub v1 v0) (v3sub v2 v0))
            (v3cross (v3sub v1 v0) (v3sub p v0))) (JSNum.fin 0) = true ∨
        JSNum.lt (v3dot (v3cross (v3sub v1 v0) (v3sub v2 v0))
            (v3cross (v3sub v2 v1) (v3sub p v1))) (JSNum.fin 0) = true ∨
        JSNum.lt (v3dot (v3cross (v3sub v1 v0) (v3sub v2 v0))
            (v3cross (v3sub v0 v2) (v3sub p v2))) (JSNum.fin 0) = true) →
        intersectRayWithTriangle rayStart rayDirection (v0, v1, v2) =
          none) ∧
      ((JSNum.ge (v3dot (v3cross (v3sub v1 v0) (v3sub v2 v0))
            (v3cross (v3sub v1 v0) (v3sub p v0))) (JSNum.fin 0) = true ∧
        JSNum.ge (v3dot (v3cross (v3sub v1 v0) (v3sub v2 v0))
            (v3cross (v3sub v2 v1) (v3sub p v1))) (JSNum.fin 0) = true ∧
        JSNum.ge (v3dot (v3cross (v3sub v1 v0) (v3sub v2 v0))
            (v3cross (v3sub v0 v2) (v3sub p v2))) (JSNum.fin 0) = true) →
        intersectRayWithTriangle rayStart rayDirection (v0, v1, v2) =
          some (t, p))) := by
  constructor
  · intro h
    simp only [intersectRayWithTriangle]
    rw [h]
  · intro t p hp
    constructor
    · intro hneg
      simp only [intersectRayWithTriangle]
      rw [hp]
      rcases hneg with h1 | h2 | h3
      · simp [h1]
      · by_cases h1 : JSNum.lt (v3dot (v3cross (v3sub v1 v0) (v3sub v2 v0))
            (v3cross (v3sub v1 v0) (v3sub p v0))) (JSNum.fin 0) = true
        · simp [h1]
        · simp [h1, h2]
      · by_cases h1 : JSNum.lt (v3dot (v3cross (v3sub v1 v0) (v3sub v2 v0))
            (v3cross (v3sub v1 v0) (v3sub p v0))) (JSNum.fin 0) = true
        · simp [h1]
        · by_cases h2 : JSNum.lt (v3dot (v3cross (v3sub v1 v0)
              (v3sub v2 v0)) (v3cross (v3sub v2 v1) (v3sub p v1)))
              (JSNum.fin 0) = true
          · simp [h1, h2]
          · simp [h1, h2, h3]
    · intro hges
      simp only [intersectRayWithTriangle]
      rw [hp]
      simp [JSNum.ge_zero_not_lt_zero hges.1,
        JSNum.ge_zero_not_lt_zero hges.2.1,
        JSNum.ge_zero_not_lt_zero hges.2.2]

/-- Witness for C2 at a concrete hitting configuration: a downward ray at
`(0.2, 0.2, 1)` over the triangle `(0,0,0), (1,0,0), (0,1,0)`. -/
theorem triangle_matches_claim_witness :
    intersectRayWithTriangle (qv3 ⟨1/5, 1/5, 1⟩) (qv3 ⟨0, 0, -1⟩)
        (qv3 ⟨0, 0, 0⟩, qv3 ⟨1, 0, 0⟩, qv3 ⟨0, 1, 0⟩) =
      some (JSNum.fin 1, qv3 ⟨1/5, 1/5, 0⟩) :=
  ((triangle_matches_claim (qv3 ⟨1/5, 1/5, 1⟩) (qv3 ⟨0, 0, -1⟩)
      (qv3 ⟨0, 0, 0⟩) (qv3 ⟨1, 0, 0⟩) (qv3 ⟨0, 1, 0⟩)).2
    (JSNum.fin 1) (qv3 ⟨1/5, 1/5, 0⟩)
    (by norm_num [intersectRayWithPlane, qv3, v3dot, v3sub, v3add, v3scale,
      v3cross, JSNum.div, JSNum.sub, JSNum.add, JSNum.mul, JSNum.le,
      JSNum.ge])).2
    (by norm_num [qv3, v3dot, v3sub, v3cross, JSNum.sub, JSNum.add,
      JSNum.mul, JSNum.le, JSNum.ge])

/-- C3: `intersectRayWithQuad` derives the plane normal `cross(v2 - v1,
v0 - v1)` and intersects the ray with the plane through `v0`; on a plane hit
it computes `t1 = dot(point - v0, v1 - v0) / dot(v1 - v0, v1 - v0)`,
rejecting when `t1 < 0` or `t1 > 1` (JS comparisons), then `t2 =
dot(point - v1, v2 - v1) / dot(v2 - v1, v2 - v1)`, rejecting likewise; if
both parameters lie in `[0, 1]` the plane-intersection pair is returned. -/
theorem quad_matches_claim (rayStart rayDirection v0 v1 v2 w : V3) :
    (intersectRayWithPlane rayStart rayDirection v0
        (v3cross (v3sub v2 v1) (v3sub v0 v1)) = none →
      intersectRayWithQuad rayStart rayDirection (v0, v1, v2, w) = none) ∧
    (∀ t p, intersectRayWithPlane rayStart rayDirection v0
        (v3cross (v3sub v2 v1) (v3sub v0 v1)) = some (t, p) →
      ((JSNum.lt (JSNum.div (v3dot (v3sub p v0) (v3sub v1 v0))
            (v3dot (v3sub v1 v0) (v3sub v1 v0))) (JSNum.fin 0) = true ∨
        JSNum.gt (JSNum.div (v3dot (v3sub p v0) (v3sub v1 v0))
            (v3dot (v3sub v1 v0) (v3sub v1 v0))) (JSNum.fin 1) = true) →
        intersectRayWithQuad rayStart rayDirection (v0, v1, v2, w) =
          none) ∧
      ((JSNum.lt (JSNum.div (v3dot (v3sub p v1) (v3sub v2 v1))
            (v3dot (v3sub v2 v1) (v3sub v2 v1))) (JSNum.fin 0) = true ∨
        JSNum.gt (JSNum.div (v3dot (v3sub p v1) (v3sub v2 v1))
            (v3dot (v3sub v2 v1) (v3sub v2 v1))) (JSNum.fin 1) = true) →
        intersectRayWithQuad rayStart rayDirection (v0, v1, v2, w) =
          none) ∧
      ((JSNum.le (JSNum.fin 0) (JSNum.div (v3dot (v3sub p v0)
            (v3sub v1 v0)) (v3dot (v3sub v1 v0) (v3sub v1 v0))) = true ∧
        JSNum.le (JSNum.div (v3dot (v3sub p v0) (v3sub v1 v0))
            (v3dot (v3sub v1 v0) (v3sub v1 v0))) (JSNum.fin 1) = true ∧
        JSNum.le (JSNum.fin 0) (JSNum.div (v3dot (v3sub p v1)
            (v3sub v2 v1)) (v3dot (v3sub v2 v1) (v3sub v2 v1))) = true ∧
        JSNum.le (JSNum.div (v3dot (v3sub p v1) (v3sub v2 v1))
            (v3dot (v3sub v2 v1) (v3sub v2 v1))) (JSNum.fin 1) = true) →
        intersectRayWithQuad rayStart rayDirection (v0, v1, v2, w) =
          some (t, p))) := by
  constructor
  · intro h
    simp only [intersectRayWithQuad]
    rw [h]
  · intro t p hp
    refine ⟨fun h1 => ?_, fun h2 => ?_, fun hin => ?_⟩
    · simp only [intersectRayWithQuad]
      rw [hp]
      have : (JSNum.lt (JSNum.div (v3dot (v3sub p v0) (v3sub v1 v0))
          (v3dot (v3sub v1 v0) (v3sub v1 v0))) (JSNum.fin 0) ||
          JSNum.gt (JSNum.div (v3dot (v3sub p v0) (v3sub v1 v0))
          (v3dot (v3sub v1 v0) (v3sub v1 v0))) (JSNum.fin 1)) = true := by
        rcases h1 with h | h <;> simp [h]
      simp [this]
    · simp only [intersectRayWithQuad]
      rw [hp]
      by_cases hfirst : (JSNum.lt (JSNum.div (v3dot (v3sub p v0)
          (v3sub v1 v0)) (v3dot (v3sub v1 v0) (v3sub v1 v0)))
          (JSNum.fin 0) ||
          JSNum.gt (JSNum.div (v3dot (v3sub p v0) (v3sub v1 v0))
          (v3dot (v3sub v1 v0) (v3sub v1 v0))) (JSNum.fin 1)) = true
      · simp [hfirst]
      · have hsnd : (JSNum.lt (JSNum.div (v3dot (v3sub p v1) (v3sub v2 v1))
            (v3dot (v3sub v2 v1) (v3sub v2 v1))) (JSNum.fin 0) ||
            JSNum.gt (JSNum.div (v3dot (v3sub p v1) (v3sub v2 v1))
            (v3dot (v3sub v2 v1) (v3sub v2 v1))) (JSNum.fin 1)) = true := by
          rcases h2 with h | h <;> simp [h]
        simp [hfirst, hsnd]
    · simp only [intersectRayWithQuad]
      rw [hp]
      simp [JSNum.mem_unit_not_out hin.1 hin.2.1,
        JSNum.mem_unit_not_out hin.2.2.1 hin.2.2.2]

/-- Witness for C3 at a concrete hitting configuration: a downward ray at
`(0.5, 0.5, 1)` over the unit square `(0,0,0), (1,0,0), (1,1,0),
(0,1,0)`. -/
theorem quad_matches_claim_witness :
    intersectRayWithQuad (qv3 ⟨1/2, 1/2, 1⟩) (qv3 ⟨0, 0, -1⟩)
        (qv3 ⟨0, 0, 0⟩, qv3 ⟨1, 0, 0⟩, qv3 ⟨1, 1, 0⟩, qv3 ⟨0, 1, 0⟩) =
      some (JSNum.fin 1, qv3 ⟨1/2, 1/2, 0⟩) :=
  ((quad_matches_claim (qv3 ⟨1/2, 1/2, 1⟩) (qv3 ⟨0, 0, -1⟩) (qv3 ⟨0, 0, 0⟩)
      (qv3 ⟨1, 0, 0⟩) (qv3 ⟨1, 1, 0⟩) (qv3 ⟨0, 1, 0⟩)).2
    (JSNum.fin 1) (qv3 ⟨1/2, 1/2, 0⟩)
    (by norm_num [intersectRayWithPlane, qv3, v3dot, v3sub, v3add, v3scale,
      v3cross, JSNum.div, JSNum.sub, JSNum.add, JSNum.mul, JSNum.le,
      JSNum.ge])).2.2
    (by norm_num [qv3, v3dot, v3sub, JSNum.div, JSNum.sub, JSNum.add,
      JSNum.mul, JSNum.le])

/-- C6: for finite inputs with a nonzero plane normal, a ray origin off the
plane and a direction not orthogonal to the normal, every hit `(time, Q)`
returned by `intersectRayWithPlane` satisfies `dot(Q - P, N) = 0` exactly
(the point lies on the plane) and `Q = O + D * time`. -/
theorem plane_hit_round_trip (o d p n : QV3)
    (hn : n ≠ ⟨0, 0, 0⟩)
    (hoff : qdot (qsub o p) n ≠ 0)
    (hv : qdot d n ≠ 0) :
    ∀ t q, intersectRayWithPlane (qv3 o) (qv3 d) (qv3 p) (qv3 n) =
        some (t, q) →
      v3dot (v3sub q (qv3 p)) (qv3 n) = JSNum.fin 0 ∧
      q = v3add (qv3 o) (v3scale (qv3 d) t) := by
  intro t q h
  rw [intersectRayWithPlane_qv3 o d p n hv] at h
  by_cases hc : 0 ≤ qdot (qsub p o) n / qdot d n
  · rw [if_pos hc] at h
    simp only [Option.some.injEq, Prod.mk.injEq] at h
    obtain ⟨ht, hq⟩ := h
    subst ht
    subst hq
    constructor
    · simp only [v3sub_qv3, v3dot_qv3, JSNum.fin.injEq]
      simp only [qdot, qsub, qcross]
      field_simp [qdot] at hv ⊢
      ring
    · simp only [qv3, v3add, v3scale, JSNum.add_fin, JSNum.mul_fin,
        V3.mk.injEq, JSNum.fin.injEq]
      refine ⟨by ring, by ring, by ring⟩
  · rw [if_neg hc] at h
    cases h

/-- Witness for C6: the downward ray from `(0, 0, 5)` onto the plane
`z = 0` hits at time `5`, at the origin, which lies on the plane. -/
theorem plane_hit_round_trip_witness :
    v3dot (v3sub (qv3 ⟨0, 0, 0⟩) (qv3 ⟨0, 0, 0⟩)) (qv3 ⟨0, 0, 1⟩) =
        JSNum.fin 0 ∧
      qv3 ⟨0, 0, 0⟩ =
        v3add (qv3 ⟨0, 0, 5⟩) (v3scale (qv3 ⟨0, 0, -1⟩) (JSNum.fin 5)) :=
  plane_hit_round_trip ⟨0, 0, 5⟩ ⟨0, 0, -1⟩ ⟨0, 0, 0⟩ ⟨0, 0, 1⟩
    (by simp)
    (by norm_num [qdot, qsub])
    (by norm_num [qdot])
    (JSNum.fin 5) (qv3 ⟨0, 0, 0⟩)
    (by norm_num [intersectRayWithPlane, qv3, v3dot, v3sub, v3add, v3scale,
      JSNum.div, JSNum.sub, JSNum.add, JSNum.mul, JSNum.le, JSNum.ge])

/-- Reversing a triangle's winding negates the (rational) plane normal, and
hence the direction dot. -/
theorem qdot_dir_rev (d a b c : QV3) :
    qdot d (qcross (qsub b c) (qsub a c)) =
      -(qdot d (qcross (qsub b a) (qsub c a))) := by
  simp only [qdot, qcross, qsub]
  ring

/-- Reversing a triangle's winding negates the plane-delta dot: the reversed
triangle uses `v2` as its plane point, but `v2` lies on the same plane. -/
theorem qdot_delta_rev (o a b c : QV3) :
    qdot (qsub c o) (qcross (qsub b c) (qsub a c)) =
      -(qdot (qsub a o) (qcross (qsub b a) (qsub c a))) := by
  simp only [qdot, qcross, qsub]
  ring

/-- The reversed triangle's first edge test (`v2->v1`) equals the original
triangle's second edge test (`v1->v2`). -/
theorem qdot_rev_edge1 (a b c pt : QV3) :
    qdot (qcross (qsub b c) (qsub a c)) (qcross (qsub b c) (qsub pt c)) =
      qdot (qcross (qsub b a) (qsub c a)) (qcross (qsub c b) (qsub pt b)) := by
  simp only [qdot, qcross, qsub]
  ring

/-- The reversed triangle's second edge test (`v1->v0`) equals the original
triangle's first edge test (`v0->v1`). -/
theorem qdot_rev_edge2 (a b c pt : QV3) :
    qdot (qcross (qsub b c) (qsub a c)) (qcross (qsub a b) (qsub pt b)) =
      qdot (qcross (qsub b a) (qsub c a)) (qcross (qsub b a) (qsub pt a)) := by
  simp only [qdot, qcross, qsub]
  ring

/-- The reversed triangle's third edge test (`v0->v2`) equals the original
triangle's third edge test (`v2->v0`). -/
theorem qdot_rev_edge3 (a b c pt : QV3) :
    qdot (qcross (qsub b c) (qsub a c)) (qcross (qsub c a) (qsub pt a)) =
      qdot (qcross (qsub b a) (qsub c a)) (qcross (qsub a c) (qsub pt c)) := by
  simp only [qdot, qcross, qsub]
  ring

/-- Swapping the first two guards of a three-guard early-return chain does
not change its value. -/
theorem guard3_swap (b1 b2 b3 : Bool) (x : Option (JSNum × V3)) :
    (if b1 then (none : Option (JSNum × V3)) else if b2 then none
      else if b3 then none else x) =
    (if b2 then none else if b1 then none else if b3 then none else x) := by
  cases b1 <;> cases b2 <;> rfl

/-- C7 fails as stated: for the triangle `(0,0,0), (1,0,0), (0,1,0)` and the
ray from `(0,0,5)` along `(1,0,0)` (parallel to the triangle's plane),
the original winding yields `time = -5 / 0 = -Infinity`, hence no-hit, while
the reversed winding uses plane point `v2` and the negated normal, yielding
`time = 5 / 0 = +Infinity` and a degenerate hit — the two results differ. -/
theorem triangle_winding_counterexample :
    intersectRayWithTriangle (qv3 ⟨0, 0, 5⟩) (qv3 ⟨1, 0, 0⟩)
        (qv3 ⟨0, 0, 0⟩, qv3 ⟨1, 0, 0⟩, qv3 ⟨0, 1, 0⟩) = none ∧
      intersectRayWithTriangle (qv3 ⟨0, 0, 5⟩) (qv3 ⟨1, 0, 0⟩)
        (qv3 ⟨0, 1, 0⟩, qv3 ⟨1, 0, 0⟩, qv3 ⟨0, 0, 0⟩) =
      some (JSNum.inf true, ⟨JSNum.inf true, JSNum.nan, JSNum.nan⟩) := by
  constructor <;>
    norm_num [intersectRayWithTriangle, intersectRayWithPlane, qv3, v3dot,
      v3sub, v3add, v3scale, v3cross, JSNum.div, JSNum.sub, JSNum.add,
      JSNum.mul, JSNum.lt, JSNum.le, JSNum.ge, JSNum.gt]

/-- C7 amended: for finite inputs whose ray direction is not parallel to the
triangle's plane (`dot(rayDirection, cross(v1 - v0, v2 - v0)) ≠ 0`),
reversing the vertex order leaves the result of `intersectRayWithTriangle`
unchanged — the same hit/no-hit outcome and, on a hit, the same time and
point. -/
theorem triangle_winding_reversal (o d a b c : QV3)
    (hv : qdot d (qcross (qsub b a) (qsub c a)) ≠ 0) :
    intersectRayWithTriangle (qv3 o) (qv3 d) (qv3 a, qv3 b, qv3 c) =
      intersectRayWithTriangle (qv3 o) (qv3 d) (qv3 c, qv3 b, qv3 a) := by
  have hv' : qdot d (qcross (qsub b c) (qsub a c)) ≠ 0 := by
    rw [qdot_dir_rev]
    exact neg_ne_zero.mpr hv
  have heq : qdot (qsub c o) (qcross (qsub b c) (qsub a c)) /
      qdot d (qcross (qsub b c) (qsub a c)) =
      qdot (qsub a o) (qcross (qsub b a) (qsub c a)) /
      qdot d (qcross (qsub b a) (qsub c a)) := by
    rw [qdot_delta_rev o a b c, qdot_dir_rev d a b c, neg_div_neg_eq]
  simp only [intersectRayWithTriangle, v3sub_qv3, v3cross_qv3]
  rw [intersectRayWithPlane_qv3 o d a (qcross (qsub b a) (qsub c a)) hv,
    intersectRayWithPlane_qv3 o d c (qcross (qsub b c) (qsub a c)) hv',
    heq]
  generalize qdot (qsub a o) (qcross (qsub b a) (qsub c a)) /
      qdot d (qcross (qsub b a) (qsub c a)) = T
  by_cases hc : 0 ≤ T
  · rw [if_pos hc]
    simp only []
    simp only [v3sub_qv3]
    simp only [v3cross_qv3]
    simp only [v3dot_qv3]
    simp only [qdot_rev_edge1 a b c, qdot_rev_edge2 a b c,
      qdot_rev_edge3 a b c]
    exact guard3_swap _ _ _ _
  · rw [if_neg hc]

/-- Witness for the amended C7: a concrete non-parallel ray over the
triangle `(0,0,0), (1,0,0), (0,1,0)` gives the same result for both
windings. -/
theorem triangle_winding_reversal_witness :
    intersectRayWithTriangle (qv3 ⟨1/5, 1/5, 1⟩) (qv3 ⟨0, 0, -1⟩)
        (qv3 ⟨0, 0, 0⟩, qv3 ⟨1, 0, 0⟩, qv3 ⟨0, 1, 0⟩) =
      intersectRayWithTriangle (qv3 ⟨1/5, 1/5, 1⟩) (qv3 ⟨0, 0, -1⟩)
        (qv3 ⟨0, 1, 0⟩, qv3 ⟨1, 0, 0⟩, qv3 ⟨0, 0, 0⟩) :=
  triangle_winding_reversal ⟨1/5, 1/5, 1⟩ ⟨0, 0, -1⟩ ⟨0, 0, 0⟩ ⟨1, 0, 0⟩
    ⟨0, 1, 0⟩ (by norm_num [qdot, qcross, qsub])

theorem rv3normalize_eq_of_pos {x y z : ℝ} (h : 0 < x * x + y * y + z * z) :
    rv3normalize ⟨x, y, z⟩ =
      ⟨x * (1 / Real.sqrt (x * x + y * y + z * z)),
       y * (1 / Real.sqrt (x * x + y * y + z * z)),
       z * (1 / Real.sqrt (x * x + y * y + z * z))⟩ := by
  unfold rv3normalize
  simp only []
  rw [if_pos h]

theorem rv3magnitude_mk (x y z : ℝ) :
    rv3magnitude ⟨x, y, z⟩ = Real.sqrt (x * x + y * y + z * z) := rfl

/-- gl-matrix `normalize` of a nonzero vector has magnitude exactly one (in
the exact real model). -/
theorem rv3magnitude_normalize {v : RV3} (hv : v ≠ ⟨0, 0, 0⟩) :
    rv3magnitude (rv3normalize v) = 1 := by
  obtain ⟨x, y, z⟩ := v
  have hcomp : ¬(x = 0 ∧ y = 0 ∧ z = 0) := by
    intro h
    exact hv (by rw [h.1, h.2.1, h.2.2])
  have hlen : 0 < x * x + y * y + z * z := by
    rcases eq_or_lt_of_le (add_nonneg (add_nonneg (mul_self_nonneg x)
      (mul_self_nonneg y)) (mul_self_nonneg z)) with h | h
    · exfalso
      apply hcomp
      have h1 : x * x = 0 := by
        nlinarith [mul_self_nonneg y, mul_self_nonneg z]
      have h2 : y * y = 0 := by
        nlinarith [mul_self_nonneg x, mul_self_nonneg z]
      have h3 : z * z = 0 := by
        nlinarith [mul_self_nonneg x, mul_self_nonneg y]
      exact ⟨mul_self_eq_zero.mp h1, mul_self_eq_zero.mp h2,
        mul_self_eq_zero.mp h3⟩
    · exact h
  rw [rv3normalize_eq_of_pos hlen, rv3magnitude_mk]
  have hs : Real.sqrt (x * x + y * y + z * z) ≠ 0 :=
    ne_of_gt (Real.sqrt_pos.mpr hlen)
  have hss : Real.sqrt (x * x + y * y + z * z) *
      Real.sqrt (x * x + y * y + z * z) = x * x + y * y + z * z :=
    Real.mul_self_sqrt hlen.le
  have key : x * (1 / Real.sqrt (x * x + y * y + z * z)) *
      (x * (1 / Real.sqrt (x * x + y * y + z * z))) +
      y * (1 / Real.sqrt (x * x + y * y + z * z)) *
      (y * (1 / Real.sqrt (x * x + y * y + z * z))) +
      z * (1 / Real.sqrt (x * x + y * y + z * z)) *
      (z * (1 / Real.sqrt (x * x + y * y + z * z))) = 1 := by
    field_simp
  rw [key, Real.sqrt_one]

theorem rv3magnitude_scale (v : RV3) (s : ℝ) :
    rv3magnitude (rv3scale v s) = |s| * rv3magnitude v := by
  obtain ⟨x, y, z⟩ := v
  simp only [rv3scale, rv3magnitude_mk]
  have hsq : x * s * (x * s) + y * s * (y * s) + z * s * (z * s) =
      s * s * (x * x + y * y + z * z) := by ring
  rw [hsq, Real.sqrt_mul (mul_self_nonneg s), Real.sqrt_mul_self_eq_abs]

/-- The ray direction recorded by `projectMouseToWorldSpace` is the
normalized world direction scaled by `rayScale`. -/
theorem projectMouse_rayDirection (nm : ℝ × ℝ)
    (camera : PerspectiveCamera) (s : ℝ) :
    (projectMouseToWorldSpace nm camera s).rayDirection =
      rv3scale (rv3normalize (worldRayDirection nm camera)) s := by
  simp only [projectMouseToWorldSpace, rv3add, rv3sub, rv3scale,
    RV3.mk.injEq]
  refine ⟨by ring, by ring, by ring⟩

/-- C5 amended: for a camera with an invertible projection matrix, provided
additionally that the derived world-space direction is nonzero and
`rayScale >= 0`, the ray satisfies `rayDirection = rayEnd - rayStart`,
`magnitude(rayDirection) = rayScale` (exactly, in the real model),
`rayStart = camera.position`, and `rayEnd = rayStart +
normalize(worldDirection) * rayScale`. -/
theorem projectMouse_ray_properties (nm : ℝ × ℝ)
    (camera : PerspectiveCamera) (rayScale : ℝ)
    (hdet : IsUnit camera.projectionMatrix.det)
    (hray : worldRayDirection nm camera ≠ ⟨0, 0, 0⟩)
    (hscale : 0 ≤ rayScale) :
    (projectMouseToWorldSpace nm camera rayScale).rayDirection =
      rv3sub (projectMouseToWorldSpace nm camera rayScale).rayEnd
        (projectMouseToWorldSpace nm camera rayScale).rayStart ∧
    rv3magnitude (projectMouseToWorldSpace nm camera rayScale).rayDirection =
      rayScale ∧
    (projectMouseToWorldSpace nm camera rayScale).rayStart =
      camera.position ∧
    (projectMouseToWorldSpace nm camera rayScale).rayEnd =
      rv3add camera.position
        (rv3scale (rv3normalize (worldRayDirection nm camera)) rayScale) := by
  refine ⟨rfl, ?_, rfl, rfl⟩
  rw [projectMouse_rayDirection, rv3magnitude_scale,
    rv3magnitude_normalize hray, mul_one, abs_of_nonneg hscale]

/-- C5 fails as universally stated: with an invertible (identity) projection
matrix but a zero inverse-view matrix the world direction degenerates to
zero and the ray magnitude is `0`, not `999`; and with a well-formed camera
but negative `rayScale = -999` the magnitude is `999`, not `-999`. -/
theorem projectMouse_magnitude_counterexample :
    IsUnit (Matrix.det (1 : Matrix (Fin 4) (Fin 4) ℝ)) ∧
    rv3magnitude ((projectMouseToWorldSpace (0, 0)
      (⟨1, 0, ⟨0, 0, 0⟩⟩ : PerspectiveCamera) 999).rayDirection) ≠ 999 ∧
    rv3magnitude ((projectMouseToWorldSpace (0, 0)
      (⟨1, 1, ⟨0, 0, 0⟩⟩ : PerspectiveCamera) (-999)).rayDirection) ≠
      (-999) := by
  refine ⟨by simp, ?_, ?_⟩
  · have hw : worldRayDirection (0, 0)
        (⟨1, 0, ⟨0, 0, 0⟩⟩ : PerspectiveCamera) = ⟨0, 0, 0⟩ := by
      simp [worldRayDirection, Matrix.zero_mulVec]
    rw [projectMouse_rayDirection, hw]
    have hn : rv3normalize ⟨0, 0, 0⟩ = ⟨0, 0, 0⟩ := by
      unfold rv3normalize
      norm_num
    rw [hn]
    have hs : rv3scale ⟨(0 : ℝ), 0, 0⟩ 999 = ⟨0, 0, 0⟩ := by
      norm_num [rv3scale]
    rw [hs, rv3magnitude_mk]
    norm_num
  · have hw : worldRayDirection (0, 0)
        (⟨1, 1, ⟨0, 0, 0⟩⟩ : PerspectiveCamera) = ⟨0, 0, -1⟩ := by
      simp [worldRayDirection, Matrix.one_mulVec, inv_one]
    rw [projectMouse_rayDirection, hw]
    have hn : rv3normalize ⟨0, 0, -1⟩ = ⟨0, 0, -1⟩ := by
      unfold rv3normalize
      norm_num
    rw [hn]
    have hs : rv3scale ⟨(0 : ℝ), 0, -1⟩ (-999) = ⟨0, 0, 999⟩ := by
      norm_num [rv3scale]
    rw [hs, rv3magnitude_mk]
    rw [show (0 : ℝ) * 0 + 0 * 0 + 999 * 999 = 999 * 999 by ring]
    rw [Real.sqrt_mul_self (by norm_num : (0 : ℝ) ≤ 999)]
    norm_num

/-- Witness for the amended C5: the identity camera at the origin with the
default `rayScale = 999` produces a ray of magnitude `999`. -/
theorem projectMouse_ray_properties_witness :
    rv3magnitude ((projectMouseToWorldSpace (0, 0)
      (⟨1, 1, ⟨0, 0, 0⟩⟩ : PerspectiveCamera) 999).rayDirection) = 999 :=
  (projectMouse_ray_properties (0, 0) ⟨1, 1, ⟨0, 0, 0⟩⟩ 999
    (by simp)
    (by
      have hw : worldRayDirection (0, 0)
          (⟨1, 1, ⟨0, 0, 0⟩⟩ : PerspectiveCamera) = ⟨0, 0, -1⟩ := by
        simp [worldRayDirection, Matrix.one_mulVec, inv_one]
      rw [hw]
      simp [RV3.mk.injEq])
    (by norm_num)).2.1
